import Mathlib

/-!
# Shallow embedding of the tiered natural-language scene extractor

This file embeds `src/natural_language_processor.py` (class
`NaturalLanguageProcessor`) in Lean 4 and proves properties of the
embedding.  Text is modelled as `List Char`; the Python `re` patterns used
by the source are hand-compiled into executable matchers that reproduce the
semantics of `re.finditer` / `re.search` / `re.findall` for those concrete
patterns (leftmost scanning, non-overlapping continuation, ordered
alternation with backtracking, greedy/lazy repetition over character
classes).  The development is ASCII-scoped: Python's `\s`, `.lower()`,
`.isupper()` and the character classes of the source patterns are embedded
for ASCII text, which is the domain the source's own patterns target.

External effects are modelled as explicit oracles:
* the optional DeepSeek client together with the outcome of its one network
  call and JSON parse (`RemoteOutcome`),
* the optional transformers NER pipeline, which may raise (`NerOracle`),
* the enumeration order Python's `list(set(...))` produces, which is
  implementation defined (`setEnum` parameter).
-/

namespace NLP

/-- Python `\s` / `str.split()` / `str.strip()` whitespace, ASCII range. -/
def isSpace (c : Char) : Bool :=
  c == ' ' || c == '\t' || c == '\n' || c == '\r' || c == '\x0b' || c == '\x0c'

/-- The class `[A-Z]`. -/
def isUpperAZ (c : Char) : Bool := 'A' ≤ c && c ≤ 'Z'

/-- The class `[a-z]`. -/
def isLowerAZ (c : Char) : Bool := 'a' ≤ c && c ≤ 'z'

/-- Regex word character `\w` (ASCII): letters, digits, underscore. -/
def isWordChar (c : Char) : Bool :=
  isUpperAZ c || isLowerAZ c || ('0' ≤ c && c ≤ '9') || c == '_'

/-- ASCII case folding, as Python `str.lower()` on ASCII text. -/
def pyLowerL (l : List Char) : List Char := l.map Char.toLower

/-- Python `str.lower()`. -/
def pyLower (s : String) : String := String.mk (pyLowerL s.toList)

/-- Python `str.strip()` (ASCII whitespace). -/
def pyStrip (l : List Char) : List Char :=
  ((l.dropWhile isSpace).reverse.dropWhile isSpace).reverse

/-- Python `str.isupper()` on ASCII text: at least one cased (alphabetic)
character and no lower-case character. -/
def pyIsUpper (l : List Char) : Bool :=
  l.any (fun c => isUpperAZ c || isLowerAZ c) && l.all (fun c => !isLowerAZ c)

/-- Consume a literal (case-sensitive); `some rest` on success.  Embeds a
regex literal without `re.IGNORECASE`. -/
def dropLitCS : List Char → List Char → Option (List Char)
  | [], s => some s
  | _ :: _, [] => none
  | p :: ps, c :: cs => if c == p then dropLitCS ps cs else none

/-- Consume a literal case-insensitively; embeds a regex literal under
`re.IGNORECASE` (ASCII folding). -/
def dropLitCI : List Char → List Char → Option (List Char)
  | [], s => some s
  | _ :: _, [] => none
  | p :: ps, c :: cs => if c.toLower == p.toLower then dropLitCI ps cs else none

/-- Does `f` succeed on some suffix, earliest suffix first?  Embeds the
position scan of `re.search`. -/
def searchFirst (f : List Char → Option α) : List Char → Option α
  | [] => f []
  | c :: cs =>
    match f (c :: cs) with
    | some a => some a
    | none => searchFirst f cs

/-- Does some suffix satisfy `f`?  Boolean form of the `re.search` scan. -/
def anySuffix (f : List Char → Bool) : List Char → Bool
  | [] => f []
  | c :: cs => f (c :: cs) || anySuffix f cs

/-- Python `pat in s` substring containment (case-sensitive). -/
def containsSub (pat : List Char) (s : List Char) : Bool :=
  anySuffix (fun t => (dropLitCS pat t).isSome) s

/-- Substring containment under ASCII case folding (for `re.IGNORECASE`
searches whose pattern is a plain word). -/
def containsSubCI (pat : List Char) (s : List Char) : Bool :=
  anySuffix (fun t => (dropLitCI pat t).isSome) s

/-- Fuel-driven core of the `re.finditer` scan: at each position try the
matcher; on a match of consumed length `n ≥ 1` emit it and resume after it,
otherwise advance one character.  Fuel `s.length` suffices because every
match of the patterns embedded here consumes at least one character. -/
def scanWithF (f : List Char → Option (α × Nat)) : Nat → List Char → List α
  | 0, _ => []
  | _ + 1, [] => []
  | fuel + 1, c :: cs =>
    match f (c :: cs) with
    | some (a, n) => a :: scanWithF f fuel (cs.drop (n - 1))
    | none => scanWithF f fuel cs

/-- `re.finditer` over the whole text for a matcher returning
(captures, consumed length). -/
def scanWith (f : List Char → Option (α × Nat)) (s : List Char) : List α :=
  scanWithF f s.length s

/-- Python `str.split()` (split on whitespace runs, no empty words),
fuel-driven. -/
def pySplitF : Nat → List Char → List (List Char)
  | 0, _ => []
  | _ + 1, [] => []
  | fuel + 1, c :: cs =>
    if isSpace c then pySplitF fuel cs
    else (c :: cs.takeWhile (fun d => !isSpace d)) ::
      pySplitF fuel (cs.dropWhile (fun d => !isSpace d))

/-- Python `str.split()`. -/
def pySplit (s : List Char) : List (List Char) := pySplitF s.length s

/-- `@dataclass Character` of the source. -/
structure Character where
  name : String
  description : String := ""
  voice_characteristics : String := ""
  emotions : List String := []
  actions : List String := []
  deriving Repr, DecidableEq

/-- `@dataclass DialogueLine` of the source.  The float `timing` is carried
as a rational; the core never computes with it. -/
structure DialogueLine where
  character : String
  text : String
  emotion : String := "neutral"
  action : String := ""
  timing : Rat := 0
  non_verbal : List String := []
  deriving Repr, DecidableEq

/-- `@dataclass ParsedScene` of the source.  `duration_estimate` is a
Python `int`, hence `Int` (the remote tier can put any integer here). -/
structure ParsedScene where
  description : String
  characters : List Character
  dialogue : List DialogueLine
  actions : List String
  environment : String
  mood : String
  duration_estimate : Int
  deriving Repr, DecidableEq

/-- `_extract_emotion_from_dialogue` (lines 456-468). -/
def extract_emotion_from_dialogue (dialogue_text : List Char) : String :=
  if dialogue_text.contains '!' then "excited"
  else if dialogue_text.contains '?' then "questioning"
  else if containsSub ['.', '.', '.'] dialogue_text then "hesitant"
  else if pyIsUpper dialogue_text then "angry"
  else "neutral"

/-- Matcher for one bracketed span `open […] close`, the shape of the two
non-verbal cue patterns `\[([^\]]+)\]` and `\(([^\)]+)\)`. -/
def delimMatchAt (opn cls : Char) (s : List Char) : Option (List Char × Nat) :=
  match s with
  | c :: cs =>
    if c == opn then
      let inner := cs.takeWhile (fun d => d != cls)
      if inner.isEmpty then none
      else match cs.drop inner.length with
        | d :: _ => if d == cls then some (inner, 2 + inner.length) else none
        | [] => none
    else none
  | [] => none

/-- `_extract_non_verbal_cues` (lines 470-483): bracketed then
parenthesised spans, each list in text order, lower-cased. -/
def extract_non_verbal_cues (text : List Char) : List String :=
  ((scanWith (delimMatchAt '[' ']') text) ++ (scanWith (delimMatchAt '(' ')') text)).map
    (fun cue => String.mk (pyLowerL cue))

/-- Matcher for dialogue pattern 1, `([A-Z][a-z]+)\s*:\s*"([^"]+)"`
(line 300).  Greedy runs are possessive here: each run is followed by a
character its class excludes. -/
def p1MatchAt (s : List Char) : Option ((List Char × List Char) × Nat) :=
  match s with
  | c :: cs =>
    if isUpperAZ c then
      let low := cs.takeWhile isLowerAZ
      if low.isEmpty then none
      else
        let r1 := cs.drop low.length
        let ws1 := r1.takeWhile isSpace
        match r1.drop ws1.length with
        | ':' :: r2 =>
          let ws2 := r2.takeWhile isSpace
          match r2.drop ws2.length with
          | '"' :: r3 =>
            let txt := r3.takeWhile (fun d => d != '"')
            if txt.isEmpty then none
            else match r3.drop txt.length with
              | '"' :: _ =>
                some ((c :: low, txt),
                  1 + low.length + ws1.length + 1 + ws2.length + 1 + txt.length + 1)
              | _ => none
          | _ => none
        | _ => none
    else none
  | [] => none

/-- The verb alternation of dialogue pattern 2, in source order. -/
def sayVerbs : List (List Char) :=
  [String.toList "said", String.toList "says", String.toList "asks",
   String.toList "replies", String.toList "responds"]

/-- Continuation `\s+([A-Z][a-z]+)` after the verb of pattern 2; returns
(name, consumed length). -/
def p2Cont (r : List Char) : Option (List Char × Nat) :=
  let ws := r.takeWhile isSpace
  if ws.isEmpty then none
  else match r.drop ws.length with
    | c :: cs =>
      if isUpperAZ c then
        let low := cs.takeWhile isLowerAZ
        if low.isEmpty then none
        else some (c :: low, ws.length + 1 + low.length)
      else none
    | [] => none

/-- Ordered alternation with backtracking into the continuation: first verb
that is a literal match and whose continuation succeeds. -/
def tryVerbs : List (List Char) → List Char → Option (Nat × List Char × Nat)
  | [], _ => none
  | v :: vs, r =>
    match dropLitCS v r with
    | some rest =>
      match p2Cont rest with
      | some (name, k) => some (v.length, name, k)
      | none => tryVerbs vs r
    | none => tryVerbs vs r

/-- Matcher for dialogue pattern 2,
`"([^"]+)"\s+(?:said|says|asks|replies|responds)\s+([A-Z][a-z]+)`
(line 319); returns ((text, name), consumed length). -/
def p2MatchAt (s : List Char) : Option ((List Char × List Char) × Nat) :=
  match s with
  | '"' :: r1 =>
    let txt := r1.takeWhile (fun d => d != '"')
    if txt.isEmpty then none
    else match r1.drop txt.length with
      | '"' :: r2 =>
        let ws1 := r2.takeWhile isSpace
        if ws1.isEmpty then none
        else
          match tryVerbs sayVerbs (r2.drop ws1.length) with
          | some (vlen, name, k) =>
            some ((txt, name), 1 + txt.length + 1 + ws1.length + vlen + k)
          | none => none
      | _ => none
  | _ => none

/-- Matcher for dialogue pattern 3 / the fallback quote scan,
`"([^"]+)"` (lines 338 and 538). -/
def p3MatchAt (s : List Char) : Option (List Char × Nat) :=
  match s with
  | '"' :: r1 =>
    let txt := r1.takeWhile (fun d => d != '"')
    if txt.isEmpty then none
    else match r1.drop txt.length with
      | '"' :: _ => some (txt, 1 + txt.length + 1)
      | _ => none
  | _ => none

/-- The DialogueLine built for a pattern-1 or pattern-2 match
(lines 303-316 and 322-334). -/
def mkDialogueLine (character dialogue_text : List Char) : DialogueLine :=
  { character := String.mk character
    text := String.mk dialogue_text
    emotion := extract_emotion_from_dialogue dialogue_text
    non_verbal := extract_non_verbal_cues dialogue_text }

/-- The pattern-1 contribution to `_extract_dialogue`. -/
def dialogueFromP1 (text : List Char) : List DialogueLine :=
  (scanWith p1MatchAt text).map (fun m => mkDialogueLine m.1 m.2)

/-- The pattern-2 contribution to `_extract_dialogue`. -/
def dialogueFromP2 (text : List Char) : List DialogueLine :=
  (scanWith p2MatchAt text).map (fun m => mkDialogueLine m.2 m.1)

/-- The pattern-3 lines (lines 336-349): quoted spans with synthetic
`Character{i+1}` speakers. -/
def dialogueFromP3 (text : List Char) : List DialogueLine :=
  (scanWith p3MatchAt text).enum.map (fun m =>
    { character := "Character" ++ toString (m.1 + 1)
      text := String.mk m.2
      emotion := extract_emotion_from_dialogue m.2
      non_verbal := extract_non_verbal_cues m.2 })

/-- `_extract_dialogue` (lines 295-351): patterns 1 and 2 both contribute,
in that order; pattern 3 runs only when the combined list is empty. -/
def extract_dialogue (text : List Char) : List DialogueLine :=
  let dialogue_lines := dialogueFromP1 text ++ dialogueFromP2 text
  if dialogue_lines.isEmpty then dialogueFromP3 text else dialogue_lines

/-- One aggregated entity of the transformers NER pipeline, as consumed by
`_extract_characters` (line 271). -/
structure NerEntity where
  word : String
  entity_group : String
  deriving Repr, DecidableEq

/-- The optional NER pipeline (`self.ner_pipeline`): absent, or a callable
that may raise. -/
def NerOracle : Type := Option (String → Except Unit (List NerEntity))

/-- Matcher for the name heuristic `\b([A-Z][a-z]+)(?=\s*[:""])`
(line 274); `prev` is the character before the current position, for the
word boundary.  The duplicated `"` in the source's class makes the class
`{':', '"'}`.  The lookahead consumes nothing. -/
def charNameMatchAt (prev : Option Char) (s : List Char) : Option (List Char × Nat) :=
  match s with
  | c :: cs =>
    if (match prev with | some p => !isWordChar p | none => true) && isUpperAZ c then
      let low := cs.takeWhile isLowerAZ
      if low.isEmpty then none
      else
        let r1 := cs.drop low.length
        match r1.drop (r1.takeWhile isSpace).length with
        | d :: _ => if d == ':' || d == '"' then some (c :: low, 1 + low.length) else none
        | [] => none
    else none
  | [] => none

/-- Fuel-driven `re.findall` scan for the name heuristic, carrying the
previous character for `\b`. -/
def charNameScanF : Nat → Option Char → List Char → List (List Char)
  | 0, _, _ => []
  | _ + 1, _, [] => []
  | fuel + 1, prev, c :: cs =>
    match charNameMatchAt prev (c :: cs) with
    | some (name, n) =>
      name :: charNameScanF fuel (some (name.getLastD c)) (cs.drop (n - 1))
    | none => charNameScanF fuel (some c) cs

/-- `re.findall(r'\b([A-Z][a-z]+)(?=\s*[:""])', text)` — the regex branch
of `_extract_characters`. -/
def charNameScan (text : List Char) : List (List Char) :=
  charNameScanF text.length none text

/-- Adjective alternation of the description pattern (line 356). -/
def descAdjectives : List String :=
  ["tall", "short", "young", "old", "beautiful", "handsome", "wearing", "dressed"]

/-- Matcher at one position for
`rf'{name}[^.]*?([^.]*(?:tall|…|dressed)[^.]*)'` with `re.IGNORECASE`
(lines 356-357).  The lazy `[^.]*?` takes zero characters whenever the
group can match at all, because shifting the group start right only
shrinks the dot-free span the adjective must fall in; the group therefore
captures exactly the dot-free span following the name occurrence, and the
pattern matches here iff some adjective occurs in that span. -/
def descMatchAt (name : List Char) (s : List Char) : Option (List Char) :=
  match dropLitCI name s with
  | some rest =>
    let span := rest.takeWhile (fun d => d != '.')
    if descAdjectives.any (fun a => containsSubCI a.toList span) then some span
    else none
  | none => none

/-- `_extract_character_description` (lines 353-362). -/
def extract_character_description (text : List Char) (character_name : String) : String :=
  match searchFirst (descMatchAt character_name.toList) text with
  | some span => String.mk (pyStrip span)
  | none => ""

/-- The emotion lexicon of `_extract_character_emotions` (line 369). -/
def emotionWords : List String :=
  ["happy", "sad", "angry", "excited", "nervous", "calm", "worried", "surprised", "confused"]

/-- Success of `re.search(rf'{a}[^.]*?{b}', text, re.IGNORECASE)`: some
occurrence of `a` is followed by an occurrence of `b` within the dot-free
span after it (`b` contains no dot, so it must fit inside the span). -/
def sepNoDot (a b : List Char) (text : List Char) : Bool :=
  anySuffix (fun t =>
    match dropLitCI a t with
    | some rest => containsSubCI b (rest.takeWhile (fun d => d != '.'))
    | none => false) text

/-- `_extract_character_emotions` (lines 364-376): lexicon order, one entry
per emotion whose two-sided proximity pattern matches. -/
def extract_character_emotions (text : List Char) (character_name : String) : List String :=
  emotionWords.filter (fun emotion =>
    sepNoDot character_name.toList emotion.toList text ||
    sepNoDot emotion.toList character_name.toList text)

/-- Verb alternation of `_extract_character_actions` (line 383), in source
order; no two are prefixes of each other. -/
def charActionVerbs : List String :=
  ["walks", "runs", "sits", "stands", "looks", "turns", "moves", "enters", "exits", "grabs", "holds"]

/-- Matcher for `rf'{name}\s+(walks|…|holds)'` with `re.IGNORECASE`;
captures the verb as it appears in the text. -/
def charActMatchAt (name : List Char) (s : List Char) : Option (List Char × Nat) :=
  match dropLitCI name s with
  | some r1 =>
    let ws := r1.takeWhile isSpace
    if ws.isEmpty then none
    else
      let r2 := r1.drop ws.length
      match charActionVerbs.findSome? (fun v =>
          if (dropLitCI v.toList r2).isSome then some (r2.take v.toList.length) else none) with
      | some verb => some (verb, name.length + ws.length + verb.length)
      | none => none
  | none => none

/-- `_extract_character_actions` (lines 378-389). -/
def extract_character_actions (text : List Char) (character_name : String) : List String :=
  (scanWith (charActMatchAt character_name.toList) text).map String.mk

/-- Stop list of `_extract_characters` (line 278). -/
def characterStopWords : List String := ["the", "and", "but", "or"]

/-- The Character record built for one surviving name (lines 280-291). -/
def mkCharacter (text : List Char) (name : String) : Character :=
  { name := name
    description := extract_character_description text name
    emotions := extract_character_emotions text name
    actions := extract_character_actions text name }

/-- `_extract_characters` (lines 264-293).  `setEnum` is the enumeration
Python's `list(set(person_names))` produces: its order is implementation
defined (hash order), so it is an explicit parameter of the embedding,
fixed per process.  A raising NER pipeline propagates, as in the source. -/
def extract_characters (ner : NerOracle) (setEnum : List String → List String)
    (text : List Char) : Except Unit (List Character) := do
  let person_names ←
    match ner with
    | some f =>
      (f (String.mk text)).map (fun entities =>
        (entities.filter (fun e => e.entity_group == "PER")).map (fun e => e.word))
    | none => pure ((charNameScan text).map String.mk)
  let person_names := setEnum person_names
  let person_names := person_names.filter (fun name => !characterStopWords.contains (pyLower name))
  pure (person_names.map (mkCharacter text))

/-- The eight scene-action patterns (lines 396-405) as (stem, directional
alternation); the empty list encodes the prep-less `enters? [^.]*` and
`exits? [^.]*` shapes. -/
def sceneActionPatterns : List (String × List String) :=
  [("walk", ["to", "into", "towards"]),
   ("run", ["to", "into", "towards"]),
   ("enter", []),
   ("exit", []),
   ("sit", ["down", "on"]),
   ("stand", ["up", "on"]),
   ("look", ["at", "towards"]),
   ("turn", ["to", "towards"])]

/-- Matcher for one scene-action pattern
`(stems? (?:prep|…)[^.]*)` with `re.IGNORECASE`; the capture is the whole
matched slice.  The greedy `s?` never needs undoing: its continuation is a
literal space, which an available `s` is not. -/
def sceneActMatchAt (stem : List Char) (preps : List String) (s : List Char) :
    Option (List Char × Nat) :=
  match dropLitCI stem s with
  | some r1 =>
    let sLen := match r1 with | c :: _ => if c.toLower == 's' then 1 else 0 | [] => 0
    match r1.drop sLen with
    | ' ' :: r2 =>
      match preps with
      | [] =>
        let len := stem.length + sLen + 1 + (r2.takeWhile (fun d => d != '.')).length
        some (s.take len, len)
      | _ :: _ =>
        match preps.findSome? (fun p =>
            if (dropLitCI p.toList r2).isSome then some p.toList.length else none) with
        | some plen =>
          let len := stem.length + sLen + 1 + plen +
            ((r2.drop plen).takeWhile (fun d => d != '.')).length
          some (s.take len, len)
        | none => none
    | _ => none
  | none => none

/-- `_extract_actions` (lines 391-412): per-pattern `re.finditer` capture
lists, appended in pattern order. -/
def extract_actions (text : List Char) : List String :=
  (sceneActionPatterns.map (fun pat =>
    (scanWith (sceneActMatchAt pat.1.toList pat.2) text).map String.mk)).flatten

/-- Place-noun alternation of the first location pattern (line 418). -/
def placeNouns : List String :=
  ["room", "house", "park", "street", "office", "restaurant", "cafe", "bar", "store",
   "school", "hospital", "church", "beach", "forest", "mountain", "city", "town", "village"]

/-- Article step of the first location pattern: try `a`, `an`, `the`, then
the empty alternative, each followed by `\s*` and the capturing group
`[^.]*(?:place…)[^.]*`.  The group always spans from its start to the next
dot, and matches iff a place noun occurs in that span. -/
def envArticleTry : List (Option String) → List Char → Option (List Char)
  | [], _ => none
  | art :: rest, r2 =>
    let attempt : Option (List Char) :=
      let afterArt : Option (List Char) :=
        match art with
        | some a => dropLitCI a.toList r2
        | none => some r2
      match afterArt with
      | some ra =>
        let g := ra.drop (ra.takeWhile isSpace).length
        let span := g.takeWhile (fun d => d != '.')
        if placeNouns.any (fun k => containsSubCI k.toList span) then some span else none
      | none => none
    match attempt with
    | some span => some span
    | none => envArticleTry rest r2

/-- Preposition alternation step of the first location pattern
`(?:in|at|inside|outside)\s+…`, ordered with backtracking into the rest of
the pattern. -/
def envPat1Try : List String → List Char → Option (List Char)
  | [], _ => none
  | v :: vs, s =>
    let attempt : Option (List Char) :=
      match dropLitCI v.toList s with
      | some r =>
        let ws := r.takeWhile isSpace
        if ws.isEmpty then none
        else envArticleTry [some "a", some "an", some "the", none] (r.drop ws.length)
      | none => none
    match attempt with
    | some span => some span
    | none => envPat1Try vs s

/-- Match of location pattern 1 at one position (capture, unstripped). -/
def envPat1At (s : List Char) : Option (List Char) :=
  envPat1Try ["in", "at", "inside", "outside"] s

/-- Match of location pattern 2, `(?:INT\.|EXT\.)\s*([^-\n]*)` with
`re.IGNORECASE`, at one position. -/
def envPat2At (s : List Char) : Option (List Char) :=
  match (dropLitCI (String.toList "int.") s).orElse
      (fun _ => dropLitCI (String.toList "ext.") s) with
  | some r =>
    let g := r.drop (r.takeWhile isSpace).length
    some (g.takeWhile (fun d => d != '-' && d != '\n'))
  | none => none

/-- Match of location pattern 3, `(?:setting|location|place):\s*([^\n]*)`
with `re.IGNORECASE`, at one position (ordered alternation, each label
requiring the colon). -/
def envPat3Try : List String → List Char → Option (List Char)
  | [], _ => none
  | w :: ws, s =>
    match dropLitCI w.toList s with
    | some (':' :: r) =>
      let g := r.drop (r.takeWhile isSpace).length
      some (g.takeWhile (fun d => d != '\n'))
    | _ => envPat3Try ws s

/-- Location pattern 3 at one position. -/
def envPat3At (s : List Char) : Option (List Char) :=
  envPat3Try ["setting", "location", "place"] s

/-- Descriptive-word bag of the environment fallback (line 429). -/
def envWords : List String :=
  ["indoor", "outdoor", "sunny", "dark", "bright", "cozy", "spacious", "crowded", "quiet", "noisy"]

/-- `_extract_environment` (lines 414-435): three location patterns tried
in order via `re.search` (group stripped), then the keyword bag joined
with `", "`, then the literal `"unspecified location"`. -/
def extract_environment (text : List Char) : String :=
  match searchFirst envPat1At text with
  | some cap => String.mk (pyStrip cap)
  | none =>
  match searchFirst envPat2At text with
  | some cap => String.mk (pyStrip cap)
  | none =>
  match searchFirst envPat3At text with
  | some cap => String.mk (pyStrip cap)
  | none =>
    let found_env := envWords.filter (fun w => containsSub w.toList (pyLowerL text))
    if !found_env.isEmpty then String.intercalate ", " found_env
    else "unspecified location"

/-- `mood_indicators` (lines 439-446), in dict insertion order. -/
def moodIndicators : List (String × List String) :=
  [("happy", ["happy", "joyful", "cheerful", "upbeat", "positive", "bright"]),
   ("sad", ["sad", "melancholy", "depressing", "gloomy", "somber"]),
   ("tense", ["tense", "suspenseful", "dramatic", "intense", "serious"]),
   ("romantic", ["romantic", "intimate", "loving", "tender", "sweet"]),
   ("comedic", ["funny", "humorous", "comedic", "amusing", "lighthearted"]),
   ("mysterious", ["mysterious", "enigmatic", "puzzling", "strange", "eerie"])]

/-- `_extract_mood` (lines 437-454): first category with any indicator
contained in the lower-cased text, else `"neutral"`. -/
def extract_mood (text : List Char) : String :=
  let text_lower := pyLowerL text
  match moodIndicators.find? (fun mi =>
      mi.2.any (fun indicator => containsSub indicator.toList text_lower)) with
  | some mi => mi.1
  | none => "neutral"

/-- `_estimate_duration` (lines 485-495).  Python ints are `Int`; `//` on
the non-negative word count is `Int` division. -/
def estimate_duration (text : List Char) (dialogue : List DialogueLine) : Int :=
  let word_count : Int := (pySplit text).length
  let dialogue_count : Int := dialogue.length
  let base_duration := max 5 (word_count / 20)
  let dialogue_duration := dialogue_count * 3
  min 30 (max base_duration dialogue_duration)

/-- `_process_with_local_nlp` (lines 234-262); raises exactly when
character extraction (the NER call) raises, and that exception propagates. -/
def process_with_local_nlp (ner : NerOracle) (setEnum : List String → List String)
    (prompt : String) : Except Unit ParsedScene :=
  match extract_characters ner setEnum prompt.toList with
  | Except.error e => Except.error e
  | Except.ok characters =>
    Except.ok
      { description :=
          if prompt.length > 200 then String.mk (prompt.toList.take 200) ++ "..." else prompt
        characters := characters
        dialogue := extract_dialogue prompt.toList
        actions := extract_actions prompt.toList
        environment := extract_environment prompt.toList
        mood := extract_mood prompt.toList
        duration_estimate := estimate_duration prompt.toList (extract_dialogue prompt.toList) }

/-- One entry of `data.get('characters', [])` as read by
`_convert_to_parsed_scene`; `none` = key absent (default applies). -/
structure RemoteCharData where
  name : Option String := none
  description : Option String := none
  voice_characteristics : Option String := none
  emotions : Option (List String) := none
  actions : Option (List String) := none
  deriving Repr, DecidableEq

/-- One entry of `data.get('dialogue', [])`. -/
structure RemoteDialData where
  character : Option String := none
  text : Option String := none
  emotion : Option String := none
  action : Option String := none
  timing : Option Rat := none
  non_verbal : Option (List String) := none
  deriving Repr, DecidableEq

/-- The parsed remote JSON dict as read by `_convert_to_parsed_scene`. -/
structure RemoteData where
  description : Option String := none
  characters : Option (List RemoteCharData) := none
  dialogue : Option (List RemoteDialData) := none
  actions : Option (List String) := none
  environment : Option String := none
  mood : Option String := none
  duration_estimate : Option Int := none
  deriving Repr, DecidableEq

/-- `_convert_to_parsed_scene` (lines 497-528): each field mapped with its
`dict.get` default; note `duration_estimate` is passed through unclamped
(default 10). -/
def convert_to_parsed_scene (data : RemoteData) : ParsedScene :=
  { description := data.description.getD ""
    characters := (data.characters.getD []).map (fun c =>
      { name := c.name.getD ""
        description := c.description.getD ""
        voice_characteristics := c.voice_characteristics.getD ""
        emotions := c.emotions.getD []
        actions := c.actions.getD [] })
    dialogue := (data.dialogue.getD []).map (fun d =>
      { character := d.character.getD ""
        text := d.text.getD ""
        emotion := d.emotion.getD "neutral"
        action := d.action.getD ""
        timing := d.timing.getD 0
        non_verbal := d.non_verbal.getD [] })
    actions := data.actions.getD []
    environment := data.environment.getD ""
    mood := data.mood.getD "neutral"
    duration_estimate := data.duration_estimate.getD 10 }

/-- Outcome of the remote completion call as observed by
`_process_with_deepseek`: the call raises, or its reply has no usable JSON
even after the salvage scan, or it parses to a data dict. -/
inductive RemoteOutcome where
  | raises : RemoteOutcome
  | unparseable : RemoteOutcome
  | parsed : RemoteData → RemoteOutcome
  deriving Repr, DecidableEq

/-- `_process_with_deepseek` (lines 156-232): a parsed reply is converted;
any failure is caught by its own handler, which demotes to the local tier
(whose own exceptions propagate out of this function). -/
def process_with_deepseek (outcome : RemoteOutcome) (ner : NerOracle)
    (setEnum : List String → List String) (prompt : String) : Except Unit ParsedScene :=
  match outcome with
  | RemoteOutcome.parsed data => pure (convert_to_parsed_scene data)
  | RemoteOutcome.raises => process_with_local_nlp ner setEnum prompt
  | RemoteOutcome.unparseable => process_with_local_nlp ner setEnum prompt

/-- `_process_with_fallback` (lines 530-556). -/
def process_with_fallback (prompt : String) : ParsedScene :=
  let quotes := scanWith p3MatchAt prompt.toList
  { description := prompt
    characters := [{ name := "Character1" }]
    dialogue := quotes.enum.map (fun q =>
      { character := "Character" ++ toString (q.1 + 1)
        text := String.mk q.2
        emotion := "neutral" })
    actions := ["scene action"]
    environment := "unspecified"
    mood := "neutral"
    duration_estimate := 10 }

/-- The tier attempted inside the `try` of
`process_natural_language_prompt` (lines 145-150): DeepSeek when a client
is configured, else the local tier. -/
def attempt_tiers (client : Option RemoteOutcome) (ner : NerOracle)
    (setEnum : List String → List String) (prompt : String) : Except Unit ParsedScene :=
  match client with
  | some outcome => process_with_deepseek outcome ner setEnum prompt
  | none => process_with_local_nlp ner setEnum prompt

/-- `process_natural_language_prompt` (lines 141-154): any exception from
the attempted tiers is caught and answered by the fallback tier. -/
def process_natural_language_prompt (client : Option RemoteOutcome) (ner : NerOracle)
    (setEnum : List String → List String) (prompt : String) : ParsedScene :=
  match attempt_tiers client ner setEnum prompt with
  | Except.ok scene => scene
  | Except.error _ => process_with_fallback prompt

/-- Specification of Python's `list(set(...))` (line 277): some enumeration
of the distinct elements — duplicate-free and membership-preserving, order
implementation defined. -/
def IsSetEnum (f : List String → List String) : Prop :=
  ∀ l, (f l).Nodup ∧ ∀ a, a ∈ f l ↔ a ∈ l

/-- A legal set enumeration that reverses first-occurrence order. -/
def revEnum (l : List String) : List String := l.dedup.reverse

/-- A text mixing the two attribution styles: pattern 1 and pattern 2 each
match exactly once. -/
def c3Text : List Char := String.toList "Alice: \"Hi\" \"Bye\" said Bob"

/-- The spec's pattern-2 example; its verb `asked` is not in the
alternation `said|says|asks|replies|responds`. -/
def c4Text : List Char := String.toList "\"Where are we going?\" asked Bob"

/-- Two colon-attributed speakers, detected in the order Alice, Bob. -/
def c7Text : List Char := String.toList "Alice: \"hi\" Bob: \"yo\""

/-- The local-tier scene for the prompt `"hi"`: no names, no quotes, no
location / mood hits, word count 1. -/
def sceneHi : ParsedScene :=
  { description := "hi"
    characters := []
    dialogue := []
    actions := []
    environment := "unspecified location"
    mood := "neutral"
    duration_estimate := 5 }

/-- A 201-character prompt, one character past the truncation threshold. -/
def longPrompt : String := String.mk (List.replicate 201 'a')

/-- The local-tier scene for `longPrompt`. -/
def sceneLong : ParsedScene :=
  { description := String.mk (List.replicate 200 'a') ++ "..."
    characters := []
    dialogue := []
    actions := []
    environment := "unspecified location"
    mood := "neutral"
    duration_estimate := 5 }

/-- A remote reply whose only key is an out-of-range `duration_estimate`. -/
def remoteDuration100 : RemoteData := { duration_estimate := some 100 }

/-- An NER pipeline that raises on every input. -/
def raisingNer : NerOracle := some (fun _ => Except.error ())

/-- Helper: `revEnum` is a legal `list(set(...))` enumeration. -/
theorem revEnum_isSetEnum : IsSetEnum revEnum := by
  intro l
  refine ⟨List.nodup_reverse.mpr (List.nodup_dedup l), fun a => ?_⟩
  rw [revEnum, List.mem_reverse, List.mem_dedup]

/-- Helper: the local duration estimator is clamped into `[5, 30]`. -/
theorem estimate_duration_mem_Icc (text : List Char) (dialogue : List DialogueLine) :
    5 ≤ estimate_duration text dialogue ∧ estimate_duration text dialogue ≤ 30 := by
  show 5 ≤ min 30 (max (max 5 (((pySplit text).length : Int) / 20)) ((dialogue.length : Int) * 3))
    ∧ min 30 (max (max 5 (((pySplit text).length : Int) / 20)) ((dialogue.length : Int) * 3)) ≤ 30
  constructor
  · exact le_min (by norm_num) (le_max_of_le_left (le_max_left 5 _))
  · exact min_le_left _ _

/-- Helper: the fields of a scene the local tier successfully returns. -/
theorem local_ok_fields (ner : NerOracle) (setEnum : List String → List String)
    (prompt : String) (scene : ParsedScene)
    (h : process_with_local_nlp ner setEnum prompt = Except.ok scene) :
    scene.description =
      (if prompt.length > 200 then String.mk (prompt.toList.take 200) ++ "..." else prompt)
    ∧ scene.environment = extract_environment prompt.toList
    ∧ scene.duration_estimate =
        estimate_duration prompt.toList (extract_dialogue prompt.toList) := by
  unfold process_with_local_nlp at h
  cases hc : extract_characters ner setEnum prompt.toList with
  | error e => rw [hc] at h; cases h
  | ok characters =>
    rw [hc] at h
    injection h with h'
    subst h'
    exact ⟨rfl, rfl, rfl⟩

/-- C1: `process_natural_language_prompt` is total: it always returns a
ParsedScene; a failed remote call or unparseable reply demotes the DeepSeek
tier to the local tier; an exception escaping the attempted tiers is
answered by the fallback tier, which itself returns a scene for every
prompt (including the empty string). -/
theorem extract_total_and_demotes (client : Option RemoteOutcome) (ner : NerOracle)
    (setEnum : List String → List String) (prompt : String) :
    (∃ scene : ParsedScene, process_natural_language_prompt client ner setEnum prompt = scene)
    ∧ (∀ outcome, client = some outcome →
        outcome = RemoteOutcome.raises ∨ outcome = RemoteOutcome.unparseable →
        process_with_deepseek outcome ner setEnum prompt =
          process_with_local_nlp ner setEnum prompt)
    ∧ (attempt_tiers client ner setEnum prompt = Except.error () →
        process_natural_language_prompt client ner setEnum prompt =
          process_with_fallback prompt)
    ∧ (∃ scene : ParsedScene, process_with_fallback prompt = scene) := by
  refine ⟨⟨_, rfl⟩, ?_, ?_, ⟨_, rfl⟩⟩
  · rintro o rfl (rfl | rfl) <;> rfl
  · intro h
    unfold process_natural_language_prompt
    rw [h]

/-- Witness for C1: demotion exercised at concrete inputs — a raising
remote call reaches the local tier, and a raising NER pipeline inside the
local tier reaches the fallback tier. -/
theorem extract_total_and_demotes_witness :
    process_with_deepseek RemoteOutcome.raises none (fun l => l) "" =
      process_with_local_nlp none (fun l => l) ""
    ∧ process_natural_language_prompt (some RemoteOutcome.raises) raisingNer (fun l => l) "" =
      process_with_fallback "" :=
  ⟨(extract_total_and_demotes (some RemoteOutcome.raises) none (fun l => l) "").2.1
      RemoteOutcome.raises rfl (Or.inl rfl),
   (extract_total_and_demotes (some RemoteOutcome.raises) raisingNer (fun l => l) "").2.2.1 rfl⟩

/-- C2 counterexample: with a configured client whose reply parses to a
dict carrying `duration_estimate: 100`, extract returns a scene whose
duration estimate is 100, outside `[5, 30]` — the remote tier does not
clamp. -/
theorem duration_bounds_counterexample :
    (process_natural_language_prompt (some (RemoteOutcome.parsed remoteDuration100))
        none (fun l => l) "hello").duration_estimate = 100
    ∧ ¬ ((100 : Int) ≤ 30) :=
  ⟨rfl, by norm_num⟩

/-- C2 amended: the `[5, 30]` bound holds for every scene the local tier
returns and for every fallback scene; the remote tier instead passes the
reply's `duration_estimate` through unclamped (defaulting to 10). -/
theorem duration_bounds_local_and_fallback (ner : NerOracle)
    (setEnum : List String → List String) (prompt : String) :
    (∀ scene, process_with_local_nlp ner setEnum prompt = Except.ok scene →
      5 ≤ scene.duration_estimate ∧ scene.duration_estimate ≤ 30)
    ∧ 5 ≤ (process_with_fallback prompt).duration_estimate
    ∧ (process_with_fallback prompt).duration_estimate ≤ 30 := by
  refine ⟨fun scene h => ?_, by show (5 : Int) ≤ 10; norm_num, by show (10 : Int) ≤ 30; norm_num⟩
  rw [(local_ok_fields ner setEnum prompt scene h).2.2]
  exact estimate_duration_mem_Icc _ _

/-- Witness for C2 amended, at the local scene for the prompt `"hi"`. -/
theorem duration_bounds_local_and_fallback_witness :
    5 ≤ sceneHi.duration_estimate ∧ sceneHi.duration_estimate ≤ 30 :=
  (duration_bounds_local_and_fallback none (fun l => l) "hi").1 sceneHi rfl

/-- C8: the local duration estimate is the larger of
`max 5 (word_count / 20)` and `dialogue_count * 3`, clamped to 30, with
the word count that of Python's whitespace `str.split()`. -/
theorem duration_formula (text : List Char) (dialogue : List DialogueLine) :
    estimate_duration text dialogue =
      min (max (max 5 (((pySplit text).length : Int) / 20)) (3 * (dialogue.length : Int))) 30 := by
  show min 30 (max (max 5 (((pySplit text).length : Int) / 20)) ((dialogue.length : Int) * 3)) = _
  rw [min_comm, mul_comm]

/-- C9: with no remote configuration the embedding of extract is a pure
function of the prompt and the per-process local resources (NER pipeline,
set-enumeration order): two calls on the same input return identical
scenes. -/
theorem no_remote_determinism (ner : NerOracle) (setEnum : List String → List String)
    (prompt : String) (s1 s2 : ParsedScene)
    (h1 : process_natural_language_prompt none ner setEnum prompt = s1)
    (h2 : process_natural_language_prompt none ner setEnum prompt = s2) :
    s1 = s2 :=
  h1.symm.trans h2

/-- Witness for C9 at the prompt `"hi"`. -/
theorem no_remote_determinism_witness : sceneHi = sceneHi :=
  no_remote_determinism none (fun l => l) "hi" sceneHi sceneHi rfl rfl

/-- C3 counterexample: on a text where pattern 1 matches (`Alice: "Hi"`),
the returned dialogue is not the pattern-1 matches alone — the pattern-2
match (`"Bye" said Bob`) also contributes. -/
theorem dialogue_cascade_counterexample :
    dialogueFromP1 c3Text ≠ [] ∧ extract_dialogue c3Text ≠ dialogueFromP1 c3Text :=
  ⟨by decide, by decide⟩

/-- C3 amended: patterns 1 and 2 are not cascaded — whenever pattern 1
matches, the result is the pattern-1 matches followed by all pattern-2
matches; only pattern 3 is suppressed. -/
theorem dialogue_p1_p2_both_contribute (text : List Char) (h : dialogueFromP1 text ≠ []) :
    extract_dialogue text = dialogueFromP1 text ++ dialogueFromP2 text := by
  unfold extract_dialogue
  cases h1 : dialogueFromP1 text with
  | nil => exact absurd h1 h
  | cons a l => rfl

/-- Witness for C3 amended, on the mixed-attribution text. -/
theorem dialogue_p1_p2_both_contribute_witness :
    extract_dialogue c3Text = dialogueFromP1 c3Text ++ dialogueFromP2 c3Text :=
  dialogue_p1_p2_both_contribute c3Text (by decide)

/-- C4 counterexample: on `"Where are we going?" asked Bob` pattern 2 does
not fire (`asked` is not in its verb alternation), so the result is not the
claimed Bob-attributed line. -/
theorem asked_bob_counterexample :
    dialogueFromP2 c4Text = []
    ∧ extract_dialogue c4Text ≠
        [{ character := "Bob", text := "Where are we going?", emotion := "questioning" }] :=
  ⟨by decide, by decide⟩

/-- C4 amended: the quote falls through to pattern 3 and is attributed to
the synthetic speaker `Character1`, keeping text and emotion. -/
theorem asked_bob_actual :
    extract_dialogue c4Text =
      [{ character := "Character1", text := "Where are we going?", emotion := "questioning" }] := by
  decide

/-- C5 counterexample: on the empty prompt no location heuristic matches,
yet the fallback tier's environment is the literal `"unspecified"`, not
`"unspecified location"`. -/
theorem environment_fallback_counterexample :
    searchFirst envPat1At [] = none
    ∧ searchFirst envPat2At [] = none
    ∧ searchFirst envPat3At [] = none
    ∧ envWords.filter (fun w => containsSub w.toList (pyLowerL [])) = []
    ∧ (process_with_fallback "").environment = "unspecified"
    ∧ ("unspecified" : String) ≠ "unspecified location" :=
  ⟨rfl, rfl, rfl, rfl, rfl, by decide⟩

/-- C5 amended: environment is always a string; when no location heuristic
matches, the local tier degrades to the literal `"unspecified location"`,
while the fallback tier uses the fixed literal `"unspecified"`. -/
theorem environment_per_tier (ner : NerOracle) (setEnum : List String → List String)
    (prompt : String)
    (h1 : searchFirst envPat1At prompt.toList = none)
    (h2 : searchFirst envPat2At prompt.toList = none)
    (h3 : searchFirst envPat3At prompt.toList = none)
    (h4 : envWords.filter (fun w => containsSub w.toList (pyLowerL prompt.toList)) = []) :
    (∀ scene, process_with_local_nlp ner setEnum prompt = Except.ok scene →
      scene.environment = "unspecified location")
    ∧ (process_with_fallback prompt).environment = "unspecified" := by
  refine ⟨fun scene h => ?_, rfl⟩
  rw [(local_ok_fields ner setEnum prompt scene h).2.1]
  unfold extract_environment
  rw [h1, h2, h3, h4]
  rfl

/-- Witness for C5 amended at the prompt `"hi"`. -/
theorem environment_per_tier_witness :
    sceneHi.environment = "unspecified location"
    ∧ (process_with_fallback "hi").environment = "unspecified" :=
  ⟨(environment_per_tier none (fun l => l) "hi" rfl rfl rfl rfl).1 sceneHi rfl,
   (environment_per_tier none (fun l => l) "hi" rfl rfl rfl rfl).2⟩

/-- C6 counterexample: the fallback tier labels the quote `Wow!` as
`neutral`, while the local surface-cue heuristic labels it `excited`. -/
theorem fallback_emotion_counterexample :
    (process_with_fallback "\"Wow!\"").dialogue.map DialogueLine.emotion = ["neutral"]
    ∧ extract_emotion_from_dialogue (String.toList "Wow!") = "excited"
    ∧ ("neutral" : String) ≠ "excited" :=
  ⟨rfl, rfl, by decide⟩

/-- C6 amended: the fallback tier assigns every quoted substring the fixed
emotion `"neutral"`, not the surface-cue heuristic of the local tier. -/
theorem fallback_emotion_neutral (prompt : String) :
    ∀ line ∈ (process_with_fallback prompt).dialogue, line.emotion = "neutral" := by
  intro line hl
  have hd : (process_with_fallback prompt).dialogue =
      (scanWith p3MatchAt prompt.toList).enum.map (fun q =>
        { character := "Character" ++ toString (q.1 + 1)
          text := String.mk q.2
          emotion := "neutral" }) := rfl
  rw [hd] at hl
  rcases List.mem_map.mp hl with ⟨q, _, rfl⟩
  rfl

/-- Witness for C6 amended, at the fallback line for the prompt `"Hi"`. -/
theorem fallback_emotion_neutral_witness :
    ({ character := "Character1", text := "Hi", emotion := "neutral" } : DialogueLine).emotion
      = "neutral" :=
  fallback_emotion_neutral "\"Hi\"" _ (by decide)

/-- C7 counterexample: reversed hash enumeration is a legal
`list(set(...))` order, and under it the characters come out as
`[Bob, Alice]` although detection order is `[Alice, Bob]`. -/
theorem character_order_counterexample :
    IsSetEnum revEnum
    ∧ (charNameScan c7Text).map String.mk = ["Alice", "Bob"]
    ∧ (extract_characters none revEnum c7Text).map (fun cs => cs.map Character.name) =
        Except.ok ["Bob", "Alice"]
    ∧ (["Bob", "Alice"] : List String) ≠ ["Alice", "Bob"] :=
  ⟨revEnum_isSetEnum, by decide, by rfl, by decide⟩

/-- C7 amended: for any legal set enumeration, the local tier's character
names are exactly the distinct detected names minus the stop words — as a
duplicate-free set, with order left to the enumeration. -/
theorem character_set_semantics (f : List String → List String) (hf : IsSetEnum f)
    (text : List Char) (cs : List Character)
    (h : extract_characters none f text = Except.ok cs) :
    (cs.map Character.name).Nodup
    ∧ ∀ n, n ∈ cs.map Character.name ↔
        (n ∈ (charNameScan text).map String.mk ∧ pyLower n ∉ characterStopWords) := by
  have e : extract_characters none f text = Except.ok
      (((f ((charNameScan text).map String.mk)).filter
          (fun name => !characterStopWords.contains (pyLower name))).map (mkCharacter text)) := rfl
  rw [e] at h
  injection h with h'
  subst h'
  have hmapname : (((f ((charNameScan text).map String.mk)).filter
        (fun name => !characterStopWords.contains (pyLower name))).map (mkCharacter text)).map
          Character.name =
      (f ((charNameScan text).map String.mk)).filter
        (fun name => !characterStopWords.contains (pyLower name)) := by
    rw [List.map_map]
    exact List.map_id _
  constructor
  · rw [hmapname]
    exact ((hf _).1).filter _
  · intro n
    rw [hmapname, List.mem_filter]
    constructor
    · rintro ⟨hmem, hp⟩
      refine ⟨((hf _).2 n).mp hmem, ?_⟩
      simpa using hp
    · rintro ⟨hmem, hp⟩
      refine ⟨((hf _).2 n).mpr hmem, ?_⟩
      simpa using hp

/-- Witness for C7 amended: the resulting name list is duplicate-free at a
concrete enumeration and text. -/
theorem character_set_semantics_witness :
    (([mkCharacter c7Text "Bob", mkCharacter c7Text "Alice"]).map Character.name).Nodup :=
  (character_set_semantics revEnum revEnum_isSetEnum c7Text
      [mkCharacter c7Text "Bob", mkCharacter c7Text "Alice"] rfl).1

/-- C10: the local tier's description is the prompt itself up to 200
characters, else exactly the first 200 characters followed by `"..."`,
giving length 203. -/
theorem local_description_truncation (ner : NerOracle) (setEnum : List String → List String)
    (prompt : String) (scene : ParsedScene)
    (h : process_with_local_nlp ner setEnum prompt = Except.ok scene) :
    (prompt.length ≤ 200 → scene.description = prompt)
    ∧ (200 < prompt.length →
        scene.description = String.mk (prompt.toList.take 200) ++ "..."
        ∧ scene.description.length = 203) := by
  have hd := (local_ok_fields ner setEnum prompt scene h).1
  constructor
  · intro hle
    rw [hd, if_neg (by omega)]
  · intro hgt
    rw [hd, if_pos (by omega)]
    refine ⟨rfl, ?_⟩
    rw [String.length_append]
    have h1 : (String.mk (prompt.toList.take 200)).length = (prompt.toList.take 200).length := rfl
    have h2 : ("..." : String).length = 3 := rfl
    have h3 : (prompt.toList.take 200).length = min 200 prompt.toList.length :=
      List.length_take ..
    have h4 : prompt.toList.length = prompt.length := rfl
    omega

set_option maxRecDepth 8000 in
/-- Witness for C10: the verbatim branch at `"hi"` and the truncation
branch at a 201-character prompt. -/
theorem local_description_truncation_witness :
    sceneHi.description = "hi"
    ∧ sceneLong.description = String.mk (longPrompt.toList.take 200) ++ "..."
    ∧ sceneLong.description.length = 203 :=
  ⟨(local_description_truncation none (fun l => l) "hi" sceneHi rfl).1 (by decide),
   (local_description_truncation none (fun l => l) longPrompt sceneLong rfl).2 (by decide)⟩

end NLP
